import Mathlib

/-!
# Verification of the aiops-deploy job-execution core (`workers.py`)

A shallow embedding of `src/workers.py` from ManageIQ/aiops-deploy.
Python floats are modelled as rationals (`ℚ`), Python `int()` truncation
as `pyInt`, the retryable HTTP loop as a fuel-indexed recursion over an
abstract per-attempt outcome function, and the worker body
`ai_service_worker` as a pure function from the job, the process-wide
configuration and the external collaborators (the `rad` library calls and
the network) to an observable trace recording metrics, logs, the built
envelope and the order of pipeline stages.
-/

set_option autoImplicit false

namespace AiopsDeploy

/-- Python `int()` applied to a real-valued quantity: truncation toward zero. -/
def pyInt (q : ℚ) : ℤ := if 0 ≤ q then ⌊q⌋ else ⌈q⌉

/-- `MAX_RETRIES = 3` (workers.py line 17). -/
def MAX_RETRIES : ℕ := 3

/-!
## Parameter tuner (`isolation_forest_params`, workers.py lines 52-68)
-/

/-- Direct embedding of `isolation_forest_params(trees_factor, sample_factor,
data_rows)`: each factor strictly inside the open interval `(0.001, 1.0)`
scales the row count, otherwise the fallback factor `0.2` is used; the two
products are truncated to integers. -/
def isolation_forest_params (trees_factor sample_factor : ℚ) (data_rows : ℕ) : ℤ × ℤ :=
  let num_trees : ℚ :=
    if 0.001 < trees_factor ∧ trees_factor < 1.0 then (data_rows : ℚ) * trees_factor
    else (data_rows : ℚ) * 0.2
  let sample_size : ℚ :=
    if 0.001 < sample_factor ∧ sample_factor < 1.0 then (data_rows : ℚ) * sample_factor
    else (data_rows : ℚ) * 0.2
  (pyInt num_trees, pyInt sample_size)

/-!
## Retry executor (`_retryable`, workers.py lines 22-49)

The underlying `session.<method>(...)` call at each attempt is abstracted as
a function from the attempt index to an outcome: either a connection error
or a response with a status code.  `resp.raise_for_status()` raises
`requests.HTTPError` exactly for status codes in `[400, 600)`.
-/

/-- Outcome of one underlying HTTP call: a `requests.ConnectionError`, or a
response carrying a status code. -/
inductive CallResult where
  | connError : CallResult
  | resp : ℕ → CallResult
deriving DecidableEq, Repr

/-- `Response.raise_for_status` raises for client (4xx) and server (5xx)
error status codes. -/
def raisesForStatus (s : ℕ) : Bool := decide (400 ≤ s ∧ s < 600)

/-- An attempt counts as failed when the call raises `ConnectionError` or the
response's `raise_for_status` raises `HTTPError`; both are caught by the
`except` clause of the loop and retried. -/
def attemptFails : CallResult → Bool
  | .connError => true
  | .resp s => raisesForStatus s

/-- The `for attempt in range(MAX_RETRIES)` loop of `_retryable`, as a
recursion on the remaining fuel.  Returns the delivered response (`none`
models the terminal `raise requests.HTTPError('All attempts failed')`)
together with the number of attempts actually performed. -/
def retryLoop (call : ℕ → CallResult) : ℕ → ℕ → Option CallResult × ℕ
  | _, 0 => (none, 0)
  | attempt, fuel + 1 =>
    let r := call attempt
    if attemptFails r then
      let p := retryLoop call (attempt + 1) fuel
      (p.1, p.2 + 1)
    else
      (some r, 1)

/-- `_retryable`: run the loop from attempt `0` with `MAX_RETRIES` fuel. -/
def _retryable (call : ℕ → CallResult) : Option CallResult × ℕ :=
  retryLoop call 0 MAX_RETRIES

/-!
## Job worker (`ai_service_worker`, workers.py lines 115-217)

The inner `worker()` body is embedded as a pure function producing an
observable trace.  The external collaborators — the `rad` library calls
(`inventory_data_to_pandas`, `preprocess`, the two detection strategies)
and the per-attempt outcome of the HTTP POST to the next service — are
parameters bundled in `Externals`.
-/

/-- Data frames are abstract tabular numeric data. -/
abbrev DataFrame := List (List ℚ)

/-- The `data` payload of a job: the `total` row count (`none` models a
missing key, raising `KeyError` on subscript) plus the raw records consumed
only by the normalization collaborator. -/
structure BatchData where
  total : Option ℕ
  raw : List (List ℚ)

/-- An inbound job: `job['account']` and `job['data']`, `none` modelling a
missing key. -/
structure Job where
  account : Option String
  data : Option BatchData

/-- The per-invocation `env` dict: `num_trees_factor`, `sample_size_factor`,
`min_score`, `ai_service`. -/
structure EnvCfg where
  num_trees_factor : ℚ
  sample_size_factor : ℚ
  min_score : ℚ
  ai_service : String

/-- Process-wide configuration read from the environment at module load:
`FEATURE_LIST` (workers.py line 18) and `RAD_STRATEGY` (line 19). -/
structure ProcCfg where
  FEATURE_LIST : List String
  RAD_STRATEGY : String

/-- The two detection strategies dispatched on `RAD_STRATEGY`
(workers.py lines 158-170). -/
inductive Strategy where
  | scikitlearn : Strategy
  | original : Strategy
deriving DecidableEq, Repr

/-- External collaborators of the worker: the `rad` library and the network.
`delivery` gives the outcome of the `i`-th POST attempt made by
`_retryable`; `fresh_batch_id` is the `uuid.uuid1()` value. -/
structure Externals where
  inventory_data_to_pandas : BatchData → List String → DataFrame
  preprocess : DataFrame → DataFrame × List ℕ
  scikitlearn_run : DataFrame → ℤ → ℤ → List ℚ
  rad_original_run : DataFrame → ℤ → ℤ → ℚ → List ℚ
  delivery : ℕ → CallResult
  fresh_batch_id : String

/-- The output envelope built at workers.py lines 180-191. -/
structure Envelope where
  id : String
  ai_service : String
  account_number : String
  results : List ℚ
  feature_list : List String
  charts : List ℚ

/-- Pipeline stages of one job, in the worker's source order. -/
inductive Stage where
  | validate : Stage
  | prepare : Stage
  | tune : Stage
  | detect : Stage
  | package : Stage
  | deliver : Stage
  | complete : Stage
deriving DecidableEq, Repr

/-- Observable trace of one `worker()` run: metrics emitted, logs, the
tuned parameters, the built envelope, the delivery outcome, and the stages
in execution order. -/
structure WorkerTrace where
  dataSizeObserved : Option ℕ := none
  invalidLogged : Bool := false
  skipLogged : Bool := false
  tuned : Option (ℤ × ℤ) := none
  prepared : Bool := false
  detectRan : Option Strategy := none
  resultsOut : Option (List ℚ) := none
  output : Option Envelope := none
  deliveryAttempts : ℕ := 0
  delivered : Option CallResult := none
  deliveryErrorLogged : Bool := false
  jobsPublishedInc : ℕ := 0
  raised : Bool := false
  deliveryTarget : Option String := none
  identityHeader : Option (Option String) := none
  events : List Stage := []

/-- Embedding of the `worker()` body (workers.py lines 123-212), in source
order: extract `account`/`data`/`total` (a `KeyError` logs an error and
returns), observe `data_size`, skip on `total == 0`, mint a batch id, tune
the parameters, prepare the data frame, run the selected strategy, build
the envelope, deliver with `_retryable` (an `HTTPError` after exhaustion is
caught and logged), and increment `jobs_published` unconditionally. -/
def ai_service_worker (ext : Externals) (cfg : ProcCfg) (env : EnvCfg)
    (job : Job) (next_service : String) (b64_identity : Option String) : WorkerTrace :=
  match job.account, job.data with
  | some account_id, some batch_data =>
    match batch_data.total with
    | some rows =>
      if rows = 0 then
        { dataSizeObserved := some rows, skipLogged := true,
          events := [Stage.validate] }
      else
        let batch_id := ext.fresh_batch_id
        let p := isolation_forest_params env.num_trees_factor env.sample_size_factor rows
        let num_trees := p.1
        let sample_size := p.2
        let df0 := ext.inventory_data_to_pandas batch_data cfg.FEATURE_LIST
        let data_frame := (ext.preprocess df0).1
        let strat : Strategy :=
          if cfg.RAD_STRATEGY = "scikitlearn" then Strategy.scikitlearn else Strategy.original
        let results : List ℚ :=
          match strat with
          | Strategy.scikitlearn => ext.scikitlearn_run data_frame num_trees sample_size
          | Strategy.original => ext.rad_original_run data_frame num_trees sample_size env.min_score
        let output : Envelope :=
          { id := batch_id, ai_service := env.ai_service,
            account_number := account_id, results := results,
            feature_list := cfg.FEATURE_LIST, charts := [] }
        let d := _retryable ext.delivery
        { dataSizeObserved := some rows,
          tuned := some (num_trees, sample_size),
          prepared := true,
          detectRan := some strat,
          resultsOut := some results,
          output := some output,
          deliveryAttempts := d.2,
          delivered := d.1,
          deliveryErrorLogged := d.1.isNone,
          jobsPublishedInc := 1,
          deliveryTarget := some next_service,
          identityHeader := some b64_identity,
          events := [Stage.validate, Stage.tune, Stage.prepare, Stage.detect,
                     Stage.package, Stage.deliver, Stage.complete] }
    | none => { invalidLogged := true }
  | _, _ => { invalidLogged := true }

/-!
## Helper lemmas
-/

/-- Truncation of a non-negative quantity is non-negative. -/
lemma pyInt_nonneg {q : ℚ} (h : 0 ≤ q) : 0 ≤ pyInt q := by
  simp only [pyInt, if_pos h]
  exact Int.floor_nonneg.mpr h

/-- If every attempt with index in `[a, a + fuel)` fails, the loop starting
at `a` with `fuel` remaining performs exactly `fuel` attempts and returns
the terminal failure. -/
lemma retryLoop_all_fail (call : ℕ → CallResult) :
    ∀ (fuel a : ℕ), (∀ i, a ≤ i → i < a + fuel → attemptFails (call i) = true) →
      retryLoop call a fuel = (none, fuel) := by
  intro fuel
  induction fuel with
  | zero => intro a _; rfl
  | succ f ih =>
    intro a h
    have ha : attemptFails (call a) = true := h a le_rfl (by omega)
    have hrec : retryLoop call (a + 1) f = (none, f) := by
      apply ih
      intro i hi hi2
      exact h i (by omega) (by omega)
    simp [retryLoop, ha, hrec]

/-- If the attempts `a, a+1, …, a+k-1` fail and attempt `a+k` succeeds with
`k` within the remaining fuel, the loop returns that response after exactly
`k + 1` attempts. -/
lemma retryLoop_first_success (call : ℕ → CallResult) :
    ∀ (k fuel a : ℕ), k < fuel →
      (∀ i, i < k → attemptFails (call (a + i)) = true) →
      attemptFails (call (a + k)) = false →
      retryLoop call a fuel = (some (call (a + k)), k + 1) := by
  intro k
  induction k with
  | zero =>
    intro fuel a hk hfail hsucc
    obtain ⟨f, rfl⟩ : ∃ f, fuel = f + 1 := ⟨fuel - 1, by omega⟩
    simp only [Nat.add_zero] at hsucc
    simp [retryLoop, hsucc]
  | succ k ih =>
    intro fuel a hk hfail hsucc
    obtain ⟨f, rfl⟩ : ∃ f, fuel = f + 1 := ⟨fuel - 1, by omega⟩
    have ha : attemptFails (call a) = true := by
      have := hfail 0 (by omega)
      simpa using this
    have hrec : retryLoop call (a + 1) f = (some (call (a + 1 + k)), k + 1) := by
      apply ih f (a + 1) (by omega)
      · intro i hi
        have := hfail (i + 1) (by omega)
        have e : a + (i + 1) = a + 1 + i := by omega
        rwa [e] at this
      · have e : a + (k + 1) = a + 1 + k := by omega
        rwa [e] at hsucc
    have e2 : a + 1 + k = a + (k + 1) := by omega
    rw [e2] at hrec
    simp [retryLoop, ha, hrec]

/-!
## Claims
-/

/-- C1: for every non-negative row count `r` and every pair of factors, each
factor strictly inside the open interval `(0.001, 1.0)` yields the component
`int(r * f)` and each factor outside it yields the fallback `int(0.2 * r)`;
the tuner returns this pair of truncated integers (totality: it never
raises), and the boundary values `0.001` and `1.0` themselves fall to the
fallback. -/
theorem tuner_branches_C1 (r : ℕ) (tf sf : ℚ) :
    isolation_forest_params tf sf r =
      ((if 0.001 < tf ∧ tf < 1.0 then pyInt ((r : ℚ) * tf) else pyInt (0.2 * (r : ℚ))),
       (if 0.001 < sf ∧ sf < 1.0 then pyInt ((r : ℚ) * sf) else pyInt (0.2 * (r : ℚ)))) ∧
    isolation_forest_params 0.001 1.0 r = (pyInt (0.2 * (r : ℚ)), pyInt (0.2 * (r : ℚ))) := by
  constructor
  · simp only [isolation_forest_params, apply_ite pyInt, mul_comm]
  · simp only [isolation_forest_params]
    norm_num [mul_comm]

/-- C2 counterexample: it is not the case that a strictly positive row count
makes both tuned components strictly positive — at row count `1` with both
factors `0.3` (strictly inside the scaled branch) the tuner returns `(0, 0)`. -/
theorem tuner_positive_C2_cex :
    ¬ ∀ (tf sf : ℚ) (r : ℕ), 0 < r →
        0 < (isolation_forest_params tf sf r).1 ∧
        0 < (isolation_forest_params tf sf r).2 := by
  intro h
  have h1 := h (3 / 10) (3 / 10) 1 (by norm_num)
  have e : isolation_forest_params (3 / 10) (3 / 10) 1 = (0, 0) := by
    norm_num [isolation_forest_params, pyInt]
  rw [e] at h1
  exact lt_irrefl 0 h1.1

/-- C2 (amended): for every row count strictly greater than zero, both
derived components are non-negative integers (strict positivity fails for
small row counts, where the scaled product truncates to zero). -/
theorem tuner_nonneg_C2 (tf sf : ℚ) (r : ℕ) (h : 0 < r) :
    0 ≤ (isolation_forest_params tf sf r).1 ∧
    0 ≤ (isolation_forest_params tf sf r).2 := by
  have hr : (0 : ℚ) ≤ (r : ℚ) := Nat.cast_nonneg r
  constructor <;> simp only [isolation_forest_params] <;> split_ifs with hc
  · exact pyInt_nonneg (mul_nonneg hr (le_of_lt (lt_trans (by norm_num) hc.1)))
  · exact pyInt_nonneg (mul_nonneg hr (by norm_num))
  · exact pyInt_nonneg (mul_nonneg hr (le_of_lt (lt_trans (by norm_num) hc.1)))
  · exact pyInt_nonneg (mul_nonneg hr (by norm_num))

/-- Witness for C2 (amended) at row count `5`, factors `0.3`. -/
theorem tuner_nonneg_C2_witness :
    0 ≤ (isolation_forest_params (3 / 10) (3 / 10) 5).1 ∧
    0 ≤ (isolation_forest_params (3 / 10) (3 / 10) 5).2 :=
  tuner_nonneg_C2 (3 / 10) (3 / 10) 5 (by decide)

/-- C3: when every one of the `MAX_RETRIES` attempts fails (error-status
response or connection failure), the retry executor performs exactly
`MAX_RETRIES = 3` attempts, never more, and raises the terminal delivery
error (`none`) instead of returning a response. -/
theorem retryable_exhaustion_C3 (call : ℕ → CallResult)
    (h : ∀ i, i < MAX_RETRIES → attemptFails (call i) = true) :
    _retryable call = (none, MAX_RETRIES) := by
  apply retryLoop_all_fail
  intro i _ hi2
  exact h i (by omega)

/-- Witness for C3: every attempt is a connection failure. -/
theorem retryable_exhaustion_C3_witness :
    _retryable (fun _ => CallResult.connError) = (none, MAX_RETRIES) :=
  retryable_exhaustion_C3 (fun _ => CallResult.connError) (fun _ _ => rfl)

/-- C4: when the attempts before index `k` fail and attempt `k` yields a
non-error outcome (with `k` within the retry bound), the retry executor
returns that response immediately after exactly `k + 1` attempts, performing
no further attempts. -/
theorem retryable_first_success_C4 (call : ℕ → CallResult) (k : ℕ)
    (hk : k < MAX_RETRIES)
    (hfail : ∀ i, i < k → attemptFails (call i) = true)
    (hsucc : attemptFails (call k) = false) :
    _retryable call = (some (call k), k + 1) := by
  have h := retryLoop_first_success call k MAX_RETRIES 0 hk
    (by intro i hi; simpa using hfail i hi) (by simpa using hsucc)
  simpa [_retryable] using h

/-- Witness for C4: the first two attempts return HTTP 500, the third
returns HTTP 200 and is delivered after exactly 3 attempts. -/
theorem retryable_first_success_C4_witness :
    _retryable (fun i => if i < 2 then CallResult.resp 500 else CallResult.resp 200) =
      (some (CallResult.resp 200), 3) := by
  have h := retryable_first_success_C4
    (fun i => if i < 2 then CallResult.resp 500 else CallResult.resp 200) 2
    (by decide) (by decide) (by decide)
  simpa using h

/-!
### Concrete fixtures for witnesses and counterexamples
-/

/-- Trivial external collaborators whose every delivery attempt is a
connection failure. -/
def extFailAll : Externals :=
  { inventory_data_to_pandas := fun _ _ => []
    preprocess := fun df => (df, [])
    scikitlearn_run := fun _ _ _ => []
    rad_original_run := fun _ _ _ _ => []
    delivery := fun _ => CallResult.connError
    fresh_batch_id := "batch-0" }

/-- Process configuration selecting the original strategy. -/
def cfgOriginal : ProcCfg := { FEATURE_LIST := [], RAD_STRATEGY := "original" }

/-- Process configuration with an unrecognized strategy selector. -/
def cfgWeird : ProcCfg := { FEATURE_LIST := [], RAD_STRATEGY := "unrecognized" }

/-- A per-invocation environment with both factors `0.3`. -/
def envTest : EnvCfg :=
  { num_trees_factor := 3 / 10, sample_size_factor := 3 / 10,
    min_score := 1 / 2, ai_service := "ai" }

/-- A well-formed two-row job for account `A1`. -/
def jobTest : Job := { account := some "A1", data := some { total := some 2, raw := [] } }

/-- C5: for every job that reaches the delivery stage, the jobs-published
counter is incremented exactly once and no exception escapes the worker;
when every delivery attempt fails, the worker additionally logs the delivery
error and still completes without raising. -/
theorem worker_publish_C5 (ext : Externals) (cfg : ProcCfg) (env : EnvCfg)
    (a : String) (raw : List (List ℚ)) (ns : String) (ident : Option String)
    (rows : ℕ) (hr : rows ≠ 0) :
    (ai_service_worker ext cfg env ⟨some a, some ⟨some rows, raw⟩⟩ ns ident).jobsPublishedInc
      = 1 ∧
    (ai_service_worker ext cfg env ⟨some a, some ⟨some rows, raw⟩⟩ ns ident).raised = false ∧
    ((∀ i, i < MAX_RETRIES → attemptFails (ext.delivery i) = true) →
      (ai_service_worker ext cfg env ⟨some a, some ⟨some rows, raw⟩⟩ ns ident).deliveryErrorLogged
        = true ∧
      (ai_service_worker ext cfg env ⟨some a, some ⟨some rows, raw⟩⟩ ns ident).deliveryAttempts
        = MAX_RETRIES) := by
  refine ⟨by simp [ai_service_worker, hr], by simp [ai_service_worker, hr], ?_⟩
  intro hall
  have hex : _retryable ext.delivery = (none, MAX_RETRIES) := by
    apply retryLoop_all_fail
    intro i _ hi
    exact hall i (by omega)
  constructor <;> simp [ai_service_worker, hr, hex]

/-- Witness for C5: a two-row job for `A1` whose every delivery attempt is a
connection failure. -/
theorem worker_publish_C5_witness :
    (ai_service_worker extFailAll cfgOriginal envTest jobTest "svc" none).jobsPublishedInc
      = 1 ∧
    (ai_service_worker extFailAll cfgOriginal envTest jobTest "svc" none).raised = false ∧
    (ai_service_worker extFailAll cfgOriginal envTest jobTest "svc" none).deliveryErrorLogged
      = true := by
  have h := worker_publish_C5 extFailAll cfgOriginal envTest "A1" [] "svc" none 2
    (by decide)
  exact ⟨h.1, h.2.1, (h.2.2 (fun i _ => rfl)).1⟩

/-- C6: a job missing the `account` key or the `data.total` key terminates
after an error log: no tuning, no detection, no delivery attempt, no
`data_size` observation, no jobs-published increment, and no exception
escapes the worker. -/
theorem worker_invalid_C6 (ext : Externals) (cfg : ProcCfg) (env : EnvCfg)
    (job : Job) (ns : String) (ident : Option String)
    (h : job.account = none ∨ job.data = none ∨
      ∃ bd, job.data = some bd ∧ bd.total = none) :
    (ai_service_worker ext cfg env job ns ident).invalidLogged = true ∧
    (ai_service_worker ext cfg env job ns ident).tuned = none ∧
    (ai_service_worker ext cfg env job ns ident).detectRan = none ∧
    (ai_service_worker ext cfg env job ns ident).deliveryAttempts = 0 ∧
    (ai_service_worker ext cfg env job ns ident).dataSizeObserved = none ∧
    (ai_service_worker ext cfg env job ns ident).jobsPublishedInc = 0 ∧
    (ai_service_worker ext cfg env job ns ident).raised = false := by
  obtain ⟨acc, dat⟩ := job
  rcases h with h | h | ⟨bd, hbd, ht⟩
  · simp only [Job.account] at h
    subst h
    cases dat <;> simp [ai_service_worker]
  · simp only [Job.data] at h
    subst h
    cases acc <;> simp [ai_service_worker]
  · simp only [Job.data] at hbd
    subst hbd
    obtain ⟨t, raw⟩ := bd
    simp only [BatchData.total] at ht
    subst ht
    cases acc <;> simp [ai_service_worker]

/-- Witness for C6: a job with a `data` payload but no `account` key. -/
theorem worker_invalid_C6_witness :
    (ai_service_worker extFailAll cfgOriginal envTest ⟨none, some ⟨some 2, []⟩⟩ "svc" none).invalidLogged
      = true ∧
    (ai_service_worker extFailAll cfgOriginal envTest ⟨none, some ⟨some 2, []⟩⟩ "svc" none).deliveryAttempts
      = 0 := by
  have h := worker_invalid_C6 extFailAll cfgOriginal envTest ⟨none, some ⟨some 2, []⟩⟩
    "svc" none (Or.inl rfl)
  exact ⟨h.1, h.2.2.2.1⟩

/-- C7: a job whose `data.total` equals exactly zero logs an informational
skip and terminates: no tuning, no model invocation, no delivery attempt,
and no exception escapes the worker. -/
theorem worker_zero_total_C7 (ext : Externals) (cfg : ProcCfg) (env : EnvCfg)
    (a : String) (raw : List (List ℚ)) (ns : String) (ident : Option String) :
    (ai_service_worker ext cfg env ⟨some a, some ⟨some 0, raw⟩⟩ ns ident).skipLogged = true ∧
    (ai_service_worker ext cfg env ⟨some a, some ⟨some 0, raw⟩⟩ ns ident).tuned = none ∧
    (ai_service_worker ext cfg env ⟨some a, some ⟨some 0, raw⟩⟩ ns ident).detectRan = none ∧
    (ai_service_worker ext cfg env ⟨some a, some ⟨some 0, raw⟩⟩ ns ident).deliveryAttempts = 0 ∧
    (ai_service_worker ext cfg env ⟨some a, some ⟨some 0, raw⟩⟩ ns ident).jobsPublishedInc = 0 ∧
    (ai_service_worker ext cfg env ⟨some a, some ⟨some 0, raw⟩⟩ ns ident).raised = false := by
  refine ⟨?_, ?_, ?_, ?_, ?_, ?_⟩ <;> simp [ai_service_worker]

/-- C8: the end-to-end job `{account: "A1", data: {total: 100, …}}` with
factors `0.3`/`0.3` is tuned to `(30, 30)`, detection runs, and the
delivered envelope carries `account_number = "A1"` and the configured
feature list passed through unchanged. -/
theorem worker_endtoend_C8 (ext : Externals) (cfg : ProcCfg) (ms : ℚ) (ai : String)
    (raw : List (List ℚ)) (ns : String) (ident : Option String) :
    (ai_service_worker ext cfg ⟨3 / 10, 3 / 10, ms, ai⟩ ⟨some "A1", some ⟨some 100, raw⟩⟩ ns ident).tuned
      = some (30, 30) ∧
    (ai_service_worker ext cfg ⟨3 / 10, 3 / 10, ms, ai⟩ ⟨some "A1", some ⟨some 100, raw⟩⟩ ns ident).detectRan.isSome
      = true ∧
    ((ai_service_worker ext cfg ⟨3 / 10, 3 / 10, ms, ai⟩ ⟨some "A1", some ⟨some 100, raw⟩⟩ ns ident).output.map
        Envelope.account_number) = some "A1" ∧
    ((ai_service_worker ext cfg ⟨3 / 10, 3 / 10, ms, ai⟩ ⟨some "A1", some ⟨some 100, raw⟩⟩ ns ident).output.map
        Envelope.feature_list) = some cfg.FEATURE_LIST := by
  have htune : isolation_forest_params (3 / 10) (3 / 10) 100 = (30, 30) := by
    norm_num [isolation_forest_params, pyInt]
  refine ⟨?_, ?_, ?_, ?_⟩
  · simp [ai_service_worker, htune]
  · simp [ai_service_worker]
  · simp [ai_service_worker]
  · simp [ai_service_worker]

/-- C9 counterexample: on a concrete valid job the stages execute as
validate, tune, prepare, detect, package, deliver, complete — parameter
tuning strictly precedes data preparation, so the claimed order
(preparation before tuning) does not hold. -/
theorem worker_order_C9_cex :
    (ai_service_worker extFailAll cfgOriginal envTest jobTest "svc" none).events =
      [Stage.validate, Stage.tune, Stage.prepare, Stage.detect,
       Stage.package, Stage.deliver, Stage.complete] ∧
    (ai_service_worker extFailAll cfgOriginal envTest jobTest "svc" none).events ≠
      [Stage.validate, Stage.prepare, Stage.tune, Stage.detect,
       Stage.package, Stage.deliver, Stage.complete] := by
  constructor
  · simp [ai_service_worker, jobTest]
  · simp [ai_service_worker, jobTest]

/-- C9 (amended): within every single job's execution the stages occur
strictly sequentially in the order validate, tune, prepare, detect, package,
deliver, complete — the parameter-tuning stage precedes the preparation
(normalization) stage. -/
theorem worker_order_C9 (ext : Externals) (cfg : ProcCfg) (env : EnvCfg)
    (a : String) (raw : List (List ℚ)) (ns : String) (ident : Option String)
    (rows : ℕ) (hr : rows ≠ 0) :
    (ai_service_worker ext cfg env ⟨some a, some ⟨some rows, raw⟩⟩ ns ident).events =
      [Stage.validate, Stage.tune, Stage.prepare, Stage.detect,
       Stage.package, Stage.deliver, Stage.complete] := by
  simp [ai_service_worker, hr]

/-- Witness for C9 (amended) on a concrete two-row job. -/
theorem worker_order_C9_witness :
    (ai_service_worker extFailAll cfgOriginal envTest ⟨some "A1", some ⟨some 2, []⟩⟩ "svc" none).events =
      [Stage.validate, Stage.tune, Stage.prepare, Stage.detect,
       Stage.package, Stage.deliver, Stage.complete] :=
  worker_order_C9 extFailAll cfgOriginal envTest "A1" [] "svc" none 2 (by decide)

/-- C10: only the exact selector string `scikitlearn` selects the
scikit-learn strategy; every other value — including unrecognized ones —
selects the original strategy, whose results consume `min_score`. -/
theorem worker_strategy_C10 (ext : Externals) (cfg : ProcCfg) (env : EnvCfg)
    (a : String) (raw : List (List ℚ)) (ns : String) (ident : Option String)
    (rows : ℕ) (hr : rows ≠ 0) :
    (cfg.RAD_STRATEGY ≠ "scikitlearn" →
      (ai_service_worker ext cfg env ⟨some a, some ⟨some rows, raw⟩⟩ ns ident).detectRan
        = some Strategy.original ∧
      (ai_service_worker ext cfg env ⟨some a, some ⟨some rows, raw⟩⟩ ns ident).resultsOut
        = some (ext.rad_original_run
            (ext.preprocess (ext.inventory_data_to_pandas ⟨some rows, raw⟩ cfg.FEATURE_LIST)).1
            (isolation_forest_params env.num_trees_factor env.sample_size_factor rows).1
            (isolation_forest_params env.num_trees_factor env.sample_size_factor rows).2
            env.min_score)) ∧
    (cfg.RAD_STRATEGY = "scikitlearn" →
      (ai_service_worker ext cfg env ⟨some a, some ⟨some rows, raw⟩⟩ ns ident).detectRan
        = some Strategy.scikitlearn) := by
  constructor
  · intro hs
    constructor <;> simp [ai_service_worker, hr, hs]
  · intro hs
    simp [ai_service_worker, hr, hs]

/-- Witness for C10: the unrecognized selector value `unrecognized` routes a
concrete job to the original strategy. -/
theorem worker_strategy_C10_witness :
    (ai_service_worker extFailAll cfgWeird envTest ⟨some "A1", some ⟨some 2, []⟩⟩ "svc" none).detectRan
      = some Strategy.original := by
  have h := worker_strategy_C10 extFailAll cfgWeird envTest "A1" [] "svc" none 2 (by decide)
  exact (h.1 (by decide)).1

end AiopsDeploy
